import Mathlib

/-!
Verification of the custom-scenario generation page: the prompt renderer, the
five provider adapters (OpenAI, Azure OpenAI, Google, Mistral, Ollama), the
dispatch guards, the tracing hook and the template-selection helper, shallowly
embedded from `src/pages/2_🛠️_Custom_Scenarios.py`.

Modelling conventions:
- Python exceptions are the `Except PyExn` monad; a `try/except Exception`
  block is the `tryExcept` combinator.  An adapter that "raises" returns
  `Except.error`; one that returns normally returns `Except.ok`.
- The network backends (`llm.generate`, `llm.invoke`,
  `llm.chat.completions.create`) are abstracted as a function argument that
  either yields the response text (`Except.ok`) or raises (`Except.error`)
  with `str(e)` as the message.  A `PyExn` additionally records, as
  instrumentation, which messages had already been handed to the backend when
  the exception was raised (in reality the send precedes the raise).
- `st.session_state` is the `SessionState` record; `st.error` / `st.info`
  banners are returned as explicit values; the module-level `messages`
  binding (possibly unbound, giving a `NameError`) is the `Globals` record.
-/

/-- A Python message object as the adapters inspect it: it may expose
`role`/`content` attributes, `type`/`content` attributes (the langchain
`SystemMessage`/`HumanMessage` shape), or neither (`other`, carrying its
`str()` rendering used in the f-string of the raised `ValueError`). -/
inductive PyMessage where
  | roleContent (role content : String)
  | typeContent (ty content : String)
  | other (str_repr : String)
deriving DecidableEq, Repr

/-- The slice of `st.session_state` the embedded code reads or writes. -/
structure SessionState where
  run_id : Option String := none
  custom_scenario_text : Option String := none
  custom_scenario_generated : Bool := false
  last_scenario : Bool := false
  last_scenario_text : Option String := none
deriving DecidableEq, Repr

/-- Module-level (global) bindings read by the Ollama generator:
`messages` is the name assigned by the prompt-construction block, `none`
when that block was skipped and the name is unbound (`NameError` on use). -/
structure Globals where
  messages : Option (List PyMessage) := none
deriving DecidableEq, Repr

/-- The `os.getenv` results read inside the Azure generator (`None` when the
variable is unset).  Client construction and the network call themselves are
abstracted into the backend argument of the adapter. -/
structure AzureEnv where
  azure_api_key : Option String := none
  azure_api_endpoint : Option String := none
  azure_deployment_name : Option String := none
  azure_api_version : Option String := none
deriving DecidableEq, Repr

/-- A raised Python exception: `msg` is `str(e)`; `sentMessages`/`sentWire`
instrument which payload had already been handed to the backend when the
exception was raised (`none` when the raise happened before any send). -/
structure PyExn where
  msg : String
  sentMessages : Option (List PyMessage) := none
  sentWire : Option (List (String × String)) := none
deriving DecidableEq, Repr

/-- What one generator call produces when it returns normally: the Python
return value (`retVal`, `none` for Python `None`), the session state
afterwards, the `st.error` banner if one was shown, and the instrumented
record of what was handed to the backend. -/
structure AdapterReturn where
  retVal : Option String
  session : SessionState
  errorShown : Option String := none
  sent : Option (List PyMessage) := none
  sentWire : Option (List (String × String)) := none
deriving DecidableEq, Repr

/-- `try: body except Exception as e: handler(e)` - the handler itself runs
in the exception monad (a handler that raises would propagate). -/
def tryExcept {α : Type} (body : Except PyExn α) (handler : PyExn → Except PyExn α) :
    Except PyExn α :=
  match body with
  | .ok a => .ok a
  | .error e => handler e

/-- The text every adapter prepends to `str(e)` in its `st.error` call. -/
def errText : String := "An error occurred while generating the scenario: "

/-- Projection: the `st.error` banner of a normally-returning run. -/
def errorShownOf (x : Except PyExn AdapterReturn) : Option String :=
  match x with
  | .ok r => r.errorShown
  | .error _ => none

/-- Projection: the session `run_id` after a normally-returning run. -/
def runIdOf (x : Except PyExn AdapterReturn) : Option String :=
  match x with
  | .ok r => r.session.run_id
  | .error _ => none

/-- Projection: the Python return value of a normally-returning run. -/
def retValOf (x : Except PyExn AdapterReturn) : Option String :=
  match x with
  | .ok r => r.retVal
  | .error _ => none

/-- Projection: the messages handed to a message-list backend. -/
def sentOf (x : Except PyExn AdapterReturn) : Option (List PyMessage) :=
  match x with
  | .ok r => r.sent
  | .error e => e.sentMessages

/-- Projection: the serialized wire messages handed to the Azure backend. -/
def sentWireOf (x : Except PyExn AdapterReturn) : Option (List (String × String)) :=
  match x with
  | .ok r => r.sentWire
  | .error e => e.sentWire

/-- Projection: `true` when the run returned normally (did not raise). -/
def runOk (x : Except PyExn AdapterReturn) : Bool :=
  match x with
  | .ok _ => true
  | .error _ => false

/-!  Prompt construction (module level, lines 424-459). -/

/-- `system_template` (line 430). -/
def system_template : String :=
  "You are a cybersecurity expert. Your task is to produce a comprehensive incident response testing scenario based on the information provided."

/-- `template_info = f"This is a '{selected_template}' scenario." if selected_template else ""`
(line 427); the empty string is Python-falsy. -/
def template_info (selected_template : String) : String :=
  if selected_template = "" then ""
  else "This is a '" ++ selected_template ++ "' scenario."

/-- `'\n'.join(selected_techniques)` (line 426). -/
def selected_techniques_string : List String → String
  | [] => ""
  | [t] => t
  | t :: rest => t ++ "\n" ++ selected_techniques_string rest

/-- `human_template` (lines 434-447) with its four placeholders substituted,
as `chat_prompt.format_prompt(...)` produces it.  The newlines adjacent to
the `template_info` and `selected_techniques_string` holes are kept as
separate append operands; the concatenated value is byte-identical to the
formatted source template (including the trailing space after
"ATT&CK techniques." in the task paragraph). -/
def user_text (industry company_size t_info s_string : String) : String :=
  "\n**Background information:**\nThe company operates in the '" ++ industry ++
  "' industry and is of size '" ++ company_size ++
  "'.\n\n**Threat actor information:**" ++ "\n" ++ t_info ++ "\n" ++
  "The threat actor is known to use the following ATT&CK techniques:" ++ "\n" ++ s_string ++ "\n" ++
  "\n**Your task:**\nCreate a custom incident response testing scenario based on the information provided. The goal of the scenario is to test the company's incident response capabilities against a threat actor group that uses the identified ATT&CK techniques. \n\nYour response should be well structured and formatted using Markdown.\n"

/-- The module-level prompt-construction block (lines 424-459):
`try: if len(selected_techniques) > 0: ... messages = ... except: st.error(...)`.
Returns the resulting `messages` binding (`none` when the guard skipped the
block and the name stays unbound) and the `st.error` banner of the `except`
clause (always `none`: nothing in the guarded body raises; the clause is kept
to mirror the source). -/
def construct_prompt (selected_techniques : List String)
    (selected_template industry company_size : String) :
    Option (List PyMessage) × Option String :=
  if selected_techniques.length > 0 then
    (some [PyMessage.typeContent "system" system_template,
           PyMessage.typeContent "human"
             (user_text industry company_size (template_info selected_template)
               (selected_techniques_string selected_techniques))], none)
  else (none, none)

/-!  OpenAI adapter: `generate_scenario_wrapper` (lines 147-180). -/

/-- The traced `generate_scenario` (lines 150-164): re-reads `model_name`
from the session *before* the `try` block (a missing key raises a `KeyError`
that escapes the adapter), calls the backend on the caller's messages, and
stores `str(run_tree.id)` in the session in both the success branch and the
`except` branch. -/
def generate_scenario_traced (openai_api_key model_name : String)
    (msgs : List PyMessage) (session_model : Option String)
    (backend : List PyMessage → Except String String)
    (run_tree_id : String) (st0 : SessionState) : Except PyExn AdapterReturn :=
  match session_model with
  | none => .error { msg := "'model_name'" }
  | some _mn =>
    tryExcept
      (match backend msgs with
       | .ok response =>
         .ok { retVal := some response,
               session := { st0 with run_id := some run_tree_id },
               sent := some msgs }
       | .error e => .error { msg := e, sentMessages := some msgs })
      (fun e =>
        .ok { retVal := none,
              session := { st0 with run_id := some run_tree_id },
              errorShown := some (errText ++ e.msg),
              sent := e.sentMessages })

/-- The untraced `generate_scenario` (lines 166-178): identical body but no
`run_id` writes. -/
def generate_scenario_untraced (openai_api_key model_name : String)
    (msgs : List PyMessage) (session_model : Option String)
    (backend : List PyMessage → Except String String)
    (st0 : SessionState) : Except PyExn AdapterReturn :=
  match session_model with
  | none => .error { msg := "'model_name'" }
  | some _mn =>
    tryExcept
      (match backend msgs with
       | .ok response =>
         .ok { retVal := some response, session := st0, sent := some msgs }
       | .error e => .error { msg := e, sentMessages := some msgs })
      (fun e =>
        .ok { retVal := none, session := st0,
              errorShown := some (errText ++ e.msg),
              sent := e.sentMessages })

/-- `generate_scenario_wrapper` (lines 147-180): defines the traced variant
when the LangSmith client was constructed at startup (`clientEnabled`) and
the untraced one otherwise, then calls it. -/
def generate_scenario_wrapper (clientEnabled : Bool)
    (openai_api_key model_name : String) (msgs : List PyMessage)
    (session_model : Option String)
    (backend : List PyMessage → Except String String)
    (run_tree_id : String) (st0 : SessionState) : Except PyExn AdapterReturn :=
  if clientEnabled then
    generate_scenario_traced openai_api_key model_name msgs session_model backend run_tree_id st0
  else
    generate_scenario_untraced openai_api_key model_name msgs session_model backend st0

/-!  Azure adapter: `generate_scenario_azure_wrapper` (lines 182-264). -/

/-- The role rewrite of the Azure message-conversion loop: `'human'` becomes
`'user'`, every other role token is kept. -/
def map_role (role : String) : String :=
  if role = "human" then "user" else role

/-- The message-conversion loop of `generate_scenario_azure` (lines 199-212):
walks the messages in order, serializing `role`/`content` or `type`/`content`
shapes with the `map_role` rewrite, and raises
`ValueError(f"Unsupported message format: {message}")` at the first message
exposing neither shape. -/
def format_messages : List PyMessage → Except String (List (String × String))
  | [] => .ok []
  | .roleContent role content :: rest =>
    (format_messages rest).map (fun tail => (map_role role, content) :: tail)
  | .typeContent ty content :: rest =>
    (format_messages rest).map (fun tail => (map_role ty, content) :: tail)
  | .other s :: _ => .error ("Unsupported message format: " ++ s)

/-- The traced `generate_scenario_azure` (lines 185-224): reads the Azure
environment, converts the messages (a conversion failure raises before
anything is sent), calls the backend on the converted wire messages, and
stores `str(run_tree.id)` in both the success and the `except` branch. -/
def generate_scenario_azure_traced (msgs : List PyMessage) (env : AzureEnv)
    (backend : List (String × String) → Except String String)
    (run_tree_id : String) (st0 : SessionState) : Except PyExn AdapterReturn :=
  tryExcept
    (match format_messages msgs with
     | .error e => .error { msg := e }
     | .ok formatted =>
       match backend formatted with
       | .ok response =>
         .ok { retVal := some response,
               session := { st0 with run_id := some run_tree_id },
               sentWire := some formatted }
       | .error e => .error { msg := e, sentWire := some formatted })
    (fun e =>
      .ok { retVal := none,
            session := { st0 with run_id := some run_tree_id },
            errorShown := some (errText ++ e.msg),
            sentWire := e.sentWire })

/-- The untraced `generate_scenario_azure` (lines 226-263). -/
def generate_scenario_azure_untraced (msgs : List PyMessage) (env : AzureEnv)
    (backend : List (String × String) → Except String String)
    (st0 : SessionState) : Except PyExn AdapterReturn :=
  tryExcept
    (match format_messages msgs with
     | .error e => .error { msg := e }
     | .ok formatted =>
       match backend formatted with
       | .ok response =>
         .ok { retVal := some response, session := st0, sentWire := some formatted }
       | .error e => .error { msg := e, sentWire := some formatted })
    (fun e =>
      .ok { retVal := none, session := st0,
            errorShown := some (errText ++ e.msg),
            sentWire := e.sentWire })

/-- `generate_scenario_azure_wrapper` (lines 182-264). -/
def generate_scenario_azure_wrapper (clientEnabled : Bool)
    (msgs : List PyMessage) (env : AzureEnv)
    (backend : List (String × String) → Except String String)
    (run_tree_id : String) (st0 : SessionState) : Except PyExn AdapterReturn :=
  if clientEnabled then
    generate_scenario_azure_traced msgs env backend run_tree_id st0
  else
    generate_scenario_azure_untraced msgs env backend st0

/-!  Google adapter: `generate_scenario_google_wrapper` (lines 266-301). -/

/-- The traced `generate_scenario_google` (lines 269-284): re-reads the key
and model from the environment inside the `try`, invokes the backend on the
caller's messages, and stores the run id in both branches. -/
def generate_scenario_google_traced (google_api_key model : Option String)
    (msgs : List PyMessage)
    (backend : List PyMessage → Except String String)
    (run_tree_id : String) (st0 : SessionState) : Except PyExn AdapterReturn :=
  tryExcept
    (match backend msgs with
     | .ok response =>
       .ok { retVal := some response,
             session := { st0 with run_id := some run_tree_id },
             sent := some msgs }
     | .error e => .error { msg := e, sentMessages := some msgs })
    (fun e =>
      .ok { retVal := none,
            session := { st0 with run_id := some run_tree_id },
            errorShown := some (errText ++ e.msg),
            sent := e.sentMessages })

/-- The untraced `generate_scenario_google` (lines 286-299). -/
def generate_scenario_google_untraced (google_api_key model : Option String)
    (msgs : List PyMessage)
    (backend : List PyMessage → Except String String)
    (st0 : SessionState) : Except PyExn AdapterReturn :=
  tryExcept
    (match backend msgs with
     | .ok response =>
       .ok { retVal := some response, session := st0, sent := some msgs }
     | .error e => .error { msg := e, sentMessages := some msgs })
    (fun e =>
      .ok { retVal := none, session := st0,
            errorShown := some (errText ++ e.msg),
            sent := e.sentMessages })

/-- `generate_scenario_google_wrapper` (lines 266-301). -/
def generate_scenario_google_wrapper (clientEnabled : Bool)
    (google_api_key model : Option String) (msgs : List PyMessage)
    (backend : List PyMessage → Except String String)
    (run_tree_id : String) (st0 : SessionState) : Except PyExn AdapterReturn :=
  if clientEnabled then
    generate_scenario_google_traced google_api_key model msgs backend run_tree_id st0
  else
    generate_scenario_google_untraced google_api_key model msgs backend st0

/-!  Mistral adapter: `generate_scenario_mistral_wrapper` (lines 303-338). -/

/-- The traced `generate_scenario_mistral` (lines 306-321): same shape as the
Google adapter. -/
def generate_scenario_mistral_traced (mistral_api_key model_name : Option String)
    (msgs : List PyMessage)
    (backend : List PyMessage → Except String String)
    (run_tree_id : String) (st0 : SessionState) : Except PyExn AdapterReturn :=
  tryExcept
    (match backend msgs with
     | .ok response =>
       .ok { retVal := some response,
             session := { st0 with run_id := some run_tree_id },
             sent := some msgs }
     | .error e => .error { msg := e, sentMessages := some msgs })
    (fun e =>
      .ok { retVal := none,
            session := { st0 with run_id := some run_tree_id },
            errorShown := some (errText ++ e.msg),
            sent := e.sentMessages })

/-- The untraced `generate_scenario_mistral` (lines 323-336). -/
def generate_scenario_mistral_untraced (mistral_api_key model_name : Option String)
    (msgs : List PyMessage)
    (backend : List PyMessage → Except String String)
    (st0 : SessionState) : Except PyExn AdapterReturn :=
  tryExcept
    (match backend msgs with
     | .ok response =>
       .ok { retVal := some response, session := st0, sent := some msgs }
     | .error e => .error { msg := e, sentMessages := some msgs })
    (fun e =>
      .ok { retVal := none, session := st0,
            errorShown := some (errText ++ e.msg),
            sent := e.sentMessages })

/-- `generate_scenario_mistral_wrapper` (lines 303-338). -/
def generate_scenario_mistral_wrapper (clientEnabled : Bool)
    (mistral_api_key model_name : Option String) (msgs : List PyMessage)
    (backend : List PyMessage → Except String String)
    (run_tree_id : String) (st0 : SessionState) : Except PyExn AdapterReturn :=
  if clientEnabled then
    generate_scenario_mistral_traced mistral_api_key model_name msgs backend run_tree_id st0
  else
    generate_scenario_mistral_untraced mistral_api_key model_name msgs backend st0

/-!  Ollama adapter: `generate_scenario_ollama_wrapper` (lines 340-373).
The generator takes only the model name; `llm.invoke(messages, model=model)`
reads the module-level `messages` binding (not a parameter), raising
`NameError("name 'messages' is not defined")` when that binding is absent. -/

/-- The traced `generate_scenario_ollama` (lines 343-357). -/
def generate_scenario_ollama_traced (model : String) (g : Globals)
    (backend : List PyMessage → Except String String)
    (run_tree_id : String) (st0 : SessionState) : Except PyExn AdapterReturn :=
  tryExcept
    (match g.messages with
     | none => .error { msg := "name 'messages' is not defined" }
     | some msgs =>
       match backend msgs with
       | .ok response =>
         .ok { retVal := some response,
               session := { st0 with run_id := some run_tree_id },
               sent := some msgs }
       | .error e => .error { msg := e, sentMessages := some msgs })
    (fun e =>
      .ok { retVal := none,
            session := { st0 with run_id := some run_tree_id },
            errorShown := some (errText ++ e.msg),
            sent := e.sentMessages })

/-- The untraced `generate_scenario_ollama` (lines 359-371). -/
def generate_scenario_ollama_untraced (model : String) (g : Globals)
    (backend : List PyMessage → Except String String)
    (st0 : SessionState) : Except PyExn AdapterReturn :=
  tryExcept
    (match g.messages with
     | none => .error { msg := "name 'messages' is not defined" }
     | some msgs =>
       match backend msgs with
       | .ok response =>
         .ok { retVal := some response, session := st0, sent := some msgs }
       | .error e => .error { msg := e, sentMessages := some msgs })
    (fun e =>
      .ok { retVal := none, session := st0,
            errorShown := some (errText ++ e.msg),
            sent := e.sentMessages })

/-- `generate_scenario_ollama_wrapper` (lines 340-373): note the wrapper is
handed only the model name - there is no messages parameter anywhere in it. -/
def generate_scenario_ollama_wrapper (clientEnabled : Bool) (model : String)
    (g : Globals) (backend : List PyMessage → Except String String)
    (run_tree_id : String) (st0 : SessionState) : Except PyExn AdapterReturn :=
  if clientEnabled then
    generate_scenario_ollama_traced model g backend run_tree_id st0
  else
    generate_scenario_ollama_untraced model g backend st0

/-!  Dispatch guards (lines 472-610).  Python falsiness of the checked values:
an empty string for the `os.environ[...]` reads, and `None` or an empty
string for the `st.session_state.get(...)` reads. -/

/-- Python truthiness of an `Optional[str]`: falsy when absent or empty. -/
def str_falsy : Option String → Bool
  | none => true
  | some s => s = ""

/-- The Azure dispatch guards (lines 474-485): note that the api-key and
endpoint checks are plain `if` statements - they show their `st.info` banner
but do not join the `elif` chain that starts at the deployment check, so they
do not prevent the wrapper call.  Returns the banners shown and whether
`generate_scenario_azure_wrapper` is called. -/
def azure_guard (api_key endpoint deployment industry company_size : String) :
    List String × Bool :=
  let infos :=
    (if api_key = "" then ["Please add your Azure OpenAI Service API key to continue."] else []) ++
    (if endpoint = "" then ["Please add your Azure OpenAI Service API endpoint to continue."] else [])
  if deployment = "" then
    (infos ++ ["Please add the name of your Azure OpenAI Service Deployment to continue."], false)
  else if industry = "" then
    (infos ++ ["Please select your company's industry to continue."], false)
  else if company_size = "" then
    (infos ++ ["Please select your company's size to continue."], false)
  else (infos, true)

/-- The default (OpenAI) dispatch guards (lines 598-610): the api-key check
is likewise a plain `if` outside the `elif` chain that starts at the
model-name check. -/
def openai_guard (openai_api_key model_name : Option String)
    (industry company_size : String) : List String × Bool :=
  let infos :=
    if str_falsy openai_api_key then ["Please add your OpenAI API key to continue."] else []
  if str_falsy model_name then
    (infos ++ ["Please select a model to continue."], false)
  else if industry = "" then
    (infos ++ ["Please select your company's industry to continue."], false)
  else if company_size = "" then
    (infos ++ ["Please select your company's size to continue."], false)
  else (infos, true)

/-- The Ollama dispatch branch (lines 568-578): a fully chained
`if/elif/elif/else` guard; on the `else` branch it calls
`generate_scenario_ollama_wrapper(model)`.  Returns the banners shown and the
wrapper's run when it was invoked (`none` when a guard fired). -/
def ollama_dispatch (ollama_model industry company_size : String)
    (clientEnabled : Bool) (run_tree_id : String) (g : Globals)
    (backend : List PyMessage → Except String String) (st : SessionState) :
    List String × Option (Except PyExn AdapterReturn) :=
  if ollama_model = "" then
    (["Please select a model to continue."], none)
  else if industry = "" then
    (["Please select your company's industry to continue."], none)
  else if company_size = "" then
    (["Please select your company's size to continue."], none)
  else
    ([], some (generate_scenario_ollama_wrapper clientEnabled ollama_model g backend run_tree_id st))

/-- The Azure result handling (lines 486-502), with `response` already
projected to its extracted text (`response.choices[0].message.content`),
`none` for Python `None`.  On a response, the session records the new
scenario and it is displayed; on `None`, the session is left as it is and the
previously stored scenario is re-displayed when one exists.  Returns the new
session state and the scenario texts rendered. -/
def azure_result_update (st : SessionState) (response : Option String) :
    SessionState × List String :=
  match response with
  | some content =>
    ({ st with custom_scenario_generated := true,
               custom_scenario_text := some content,
               last_scenario := true,
               last_scenario_text := some content }, [content])
  | none =>
    (st,
     match st.custom_scenario_text with
     | some t => if st.custom_scenario_generated then [t] else []
     | none => [])

/-!  Incident response templates and template selection (lines 77-111 and
375-382). -/

/-- `incident_response_templates` (lines 77-111), as an insertion-ordered
association list. -/
def incident_response_templates : List (String × List String) := [
  ("Phishing Attack", ["Spearphishing Attachment (T1193)", "User Execution (T1204)", "Browser Extensions (T1176)", "Credentials from Password Stores (T1555)", "Input Capture (T1056)", "Exfiltration Over C2 Channel (T1041)"]),
  ("Ransomware Attack", ["Exploit Public-Facing Application (T1190)", "Windows Management Instrumentation (T1047)", "Create Account (T1136)", "Process Injection (T1055)", "Data Encrypted for Impact (T1486)"]),
  ("Malware Infection", ["Supply Chain Compromise (T1195)", "Command and Scripting Interpreter (T1059)", "Registry Run Keys / Startup Folder (T1060)", "Obfuscated Files or Information (T1027)", "Remote Services (T1021)", "Data Destruction (T1485)"]),
  ("Insider Threat", ["Valid Accounts (T1078)", "Account Manipulation (T1098)", "Exploitation for Privilege Escalation (T1068)", "Data Staged (T1074)", "Scheduled Transfer (T1029)", "Account Access Removal (T1531)"]),
  ("Fuzzy Kola Attack", [
    "System Information Discovery (T1082)",
    "Account Discovery (T1087)",
    "Network Configuration Discovery (T1016)",
    "Network Share Discovery (T1135)",
    "Compromise Infrastructure (T1584)",
    "Spearphishing Attachment (T1566.001)",
    "User Execution (T1204.002)",
    "PowerShell (T1059.001)",
    "Windows Command Shell (T1059.003)",
    "Regsvr32 (T1218.010)",
    "Rundll32 (T1218.011)",
    "Registry Run Keys / Startup Folder (T1547.001)",
    "Accessibility Features (T1546.008)",
    "Exploitation for Privilege Escalation (T1068)",
    "Obfuscated Files or Information (T1027)",
    "File Deletion (T1070.004)",
    "Indirect Command Execution (T1202)",
    "LSASS Memory (T1003.001)",
    "File and Directory Discovery (T1083)",
    "System Service Discovery (T1007)",
    "SMB/Windows Admin Shares (T1021.002)",
    "Keylogging (T1056.001)",
    "DNS (T1071.004)",
    "Domain Generation Algorithms (T1568.002)",
    "Protocol Tunneling (T1572)",
    "Exfiltration Over C2 Channel (T1041)",
    "Inhibit System Recovery (T1490)"])]

/-- `template in incident_response_templates` / the dict lookup. -/
def lookup_template (template : String) : Option (List String) :=
  (incident_response_templates.find? (fun p => p.1 = template)).map (fun p => p.2)

/-- `template_selection` (lines 375-382): when the template exists, filters
the catalog's `Display Name` column (given here in the catalog's own row
order) down to the names listed by the template -
`techniques_df[techniques_df['Display Name'].isin(template_techniques)]` -
and stores the resulting list as the selection.  Returns `none` when the
template is unknown (no session update). -/
def template_selection (catalog_display_names : List String) (template : String) :
    Option (List String) :=
  match lookup_template template with
  | some template_techniques =>
    some (catalog_display_names.filter (fun d => template_techniques.contains d))
  | none => none

/-- Whether a message exposes one of the two attribute shapes the Azure
conversion loop recognizes. -/
def has_shape : PyMessage → Bool
  | .other _ => false
  | _ => true

/-- The wire form the Azure conversion loop produces for a recognized
message. -/
def wire_of : PyMessage → String × String
  | .roleContent role content => (map_role role, content)
  | .typeContent ty content => (map_role ty, content)
  | .other s => ("", s)

/-!  Theorems. -/

/-- Claim C1: the claim says that an invocation with any required credential
empty returns a `Failure` without the backend being called; the code's Azure
and OpenAI dispatch branches leave the api-key check outside the `elif`
chain, so with an empty api key but non-empty deployment name (resp. model
name), industry and company size, the info banner is shown and the backend
wrapper is called anyway. -/
theorem azure_dispatch_empty_key_still_calls_backend :
    azure_guard "" "https://example.openai.azure.com" "gpt4-deployment" "Finance" "Large" =
      (["Please add your Azure OpenAI Service API key to continue."], true) ∧
    openai_guard none (some "gpt-4") "Finance" "Large" =
      (["Please add your OpenAI API key to continue."], true) := by
  exact ⟨rfl, rfl⟩

/-- Claim C2: the Ollama generator has no messages parameter at all - every
run hands the backend exactly the module-global `messages` binding (and
raises a `NameError`, caught into a `Failure`, when that binding is absent),
so the messages sent can never be a caller-supplied argument. -/
theorem ollama_backend_receives_global_messages :
  ∀ (clientEnabled : Bool) (model : String) (g : Globals)
    (backend : List PyMessage → Except String String)
    (run_tree_id : String) (st : SessionState),
    sentOf (generate_scenario_ollama_wrapper clientEnabled model g backend run_tree_id st) =
      g.messages := by
  intro ce model g backend rt st
  cases hg : g.messages with
  | none =>
    cases ce <;>
      simp [generate_scenario_ollama_wrapper, generate_scenario_ollama_traced,
            generate_scenario_ollama_untraced, tryExcept, sentOf, hg]
  | some msgs =>
    cases ce <;> cases hb : backend msgs <;>
      simp [generate_scenario_ollama_wrapper, generate_scenario_ollama_traced,
            generate_scenario_ollama_untraced, tryExcept, sentOf, hg, hb]

/-- Claim C8 counterexample: at backend error text "boom", the surfaced
failure message is the backend text with a fixed preamble prepended, not the
backend text verbatim. -/
theorem backend_error_message_not_verbatim :
    errorShownOf (generate_scenario_traced "sk-key" "gpt-4" [] (some "gpt-4")
        (fun _ => Except.error "boom") "run-1" {}) =
      some "An error occurred while generating the scenario: boom" ∧
    errorShownOf (generate_scenario_traced "sk-key" "gpt-4" [] (some "gpt-4")
        (fun _ => Except.error "boom") "run-1" {}) ≠ some "boom" := by
  exact ⟨rfl, by decide⟩

/-- Claim C8 amended: for every backend failure - any error text, in each of
the five adapters, in both hook states, with the backend genuinely reached
(the Azure conversion succeeding, the Ollama global messages bound) - the
surfaced failure message is the backend's error text prefixed by the fixed
preamble "An error occurred while generating the scenario: "; the backend
text appears verbatim after the preamble with nothing appended. -/
theorem backend_error_text_after_fixed_preamble :
  ∀ (e rt : String) (enabled : Bool) (st : SessionState)
    (k mn sm : String) (omsgs : List PyMessage)
    (amsgs : List PyMessage) (wire : List (String × String)) (env : AzureEnv)
    (gk gm mk mm : Option String) (gmsgs mmsgs : List PyMessage)
    (om : String) (g : Globals) (lmsgs : List PyMessage),
    format_messages amsgs = Except.ok wire →
    g.messages = some lmsgs →
    errorShownOf (generate_scenario_wrapper enabled k mn omsgs (some sm)
        (fun _ => Except.error e) rt st) = some (errText ++ e) ∧
    errorShownOf (generate_scenario_azure_wrapper enabled amsgs env
        (fun _ => Except.error e) rt st) = some (errText ++ e) ∧
    errorShownOf (generate_scenario_google_wrapper enabled gk gm gmsgs
        (fun _ => Except.error e) rt st) = some (errText ++ e) ∧
    errorShownOf (generate_scenario_mistral_wrapper enabled mk mm mmsgs
        (fun _ => Except.error e) rt st) = some (errText ++ e) ∧
    errorShownOf (generate_scenario_ollama_wrapper enabled om g
        (fun _ => Except.error e) rt st) = some (errText ++ e) ∧
    errText ++ e = "An error occurred while generating the scenario: " ++ e := by
  intro e rt enabled st k mn sm omsgs amsgs wire env gk gm mk mm gmsgs mmsgs om g lmsgs hfmt hg
  refine ⟨?_, ?_, ?_, ?_, ?_, rfl⟩
  · cases enabled <;>
      simp [generate_scenario_wrapper, generate_scenario_traced,
            generate_scenario_untraced, tryExcept, errorShownOf]
  · cases enabled <;>
      simp [generate_scenario_azure_wrapper, generate_scenario_azure_traced,
            generate_scenario_azure_untraced, tryExcept, errorShownOf, hfmt]
  · cases enabled <;>
      simp [generate_scenario_google_wrapper, generate_scenario_google_traced,
            generate_scenario_google_untraced, tryExcept, errorShownOf]
  · cases enabled <;>
      simp [generate_scenario_mistral_wrapper, generate_scenario_mistral_traced,
            generate_scenario_mistral_untraced, tryExcept, errorShownOf]
  · cases enabled <;>
      simp [generate_scenario_ollama_wrapper, generate_scenario_ollama_traced,
            generate_scenario_ollama_untraced, tryExcept, errorShownOf, hg]

/-- Witness for claim C8's amended statement at a concrete backend error in
the enabled hook state. -/
theorem backend_error_text_after_fixed_preamble_witness :
    errorShownOf (generate_scenario_wrapper true "sk-key" "gpt-4" [] (some "gpt-4")
        (fun _ => Except.error "boom") "run-1" {}) = some (errText ++ "boom") ∧
    errorShownOf (generate_scenario_azure_wrapper true [] {}
        (fun _ => Except.error "boom") "run-1" {}) = some (errText ++ "boom") ∧
    errorShownOf (generate_scenario_google_wrapper true none none []
        (fun _ => Except.error "boom") "run-1" {}) = some (errText ++ "boom") ∧
    errorShownOf (generate_scenario_mistral_wrapper true none none []
        (fun _ => Except.error "boom") "run-1" {}) = some (errText ++ "boom") ∧
    errorShownOf (generate_scenario_ollama_wrapper true "llama2" { messages := some [] }
        (fun _ => Except.error "boom") "run-1" {}) = some (errText ++ "boom") ∧
    errText ++ "boom" = "An error occurred while generating the scenario: " ++ "boom" := by
  exact backend_error_text_after_fixed_preamble "boom" "run-1" true {} "sk-key" "gpt-4"
    "gpt-4" [] [] [] {} none none none none [] [] "llama2" { messages := some [] } []
    rfl rfl

/-- Claim C9: when the Azure invocation comes back as a `Failure` (Python
`None`), the stored `custom_scenario_text` and `custom_scenario_generated`
session values from an earlier success are left untouched, and that prior
text is what gets re-displayed. -/
theorem azure_failure_preserves_prior_scenario :
  ∀ (st : SessionState),
    (azure_result_update st none).1 = st ∧
    (∀ t, st.custom_scenario_text = some t → st.custom_scenario_generated = true →
      (azure_result_update st none).2 = [t]) := by
  intro st
  refine ⟨rfl, ?_⟩
  intro t ht hg
  simp [azure_result_update, ht, hg]

/-- Witness for claim C9 at a concrete prior success. -/
theorem azure_failure_preserves_prior_scenario_witness :
    (azure_result_update
        { custom_scenario_text := some "prior scenario",
          custom_scenario_generated := true } none).1 =
      { custom_scenario_text := some "prior scenario",
        custom_scenario_generated := true } ∧
    (azure_result_update
        { custom_scenario_text := some "prior scenario",
          custom_scenario_generated := true } none).2 = ["prior scenario"] := by
  exact ⟨(azure_failure_preserves_prior_scenario _).1,
         (azure_failure_preserves_prior_scenario
           { custom_scenario_text := some "prior scenario",
             custom_scenario_generated := true }).2 "prior scenario" rfl rfl⟩

/-- Claim C3: with the tracing client constructed at startup (hook Enabled),
every run of each of the five generators - whatever the backend does, succeed
or raise, including the Azure conversion raise and the Ollama unbound-name
raise - ends with the session `run_id` set to the (non-empty)
`str(run_tree.id)`; with the hook Disabled the generators never touch
`run_id`, so starting from a session without one, both outcomes carry none. -/
theorem run_id_hook_invariant :
  ∀ (run_tree_id k mn sm om : String) (omsgs : List PyMessage)
    (b1 : List PyMessage → Except String String)
    (amsgs : List PyMessage) (env : AzureEnv)
    (b2 : List (String × String) → Except String String)
    (gk gm mk mm : Option String) (gmsgs mmsgs : List PyMessage)
    (b3 b4 : List PyMessage → Except String String)
    (g : Globals) (b5 : List PyMessage → Except String String) (st : SessionState),
    run_tree_id ≠ "" → st.run_id = none →
    (runIdOf (generate_scenario_wrapper true k mn omsgs (some sm) b1 run_tree_id st) =
        some run_tree_id ∧ run_tree_id ≠ "") ∧
    runIdOf (generate_scenario_wrapper false k mn omsgs (some sm) b1 run_tree_id st) = none ∧
    (runIdOf (generate_scenario_azure_wrapper true amsgs env b2 run_tree_id st) =
        some run_tree_id ∧ run_tree_id ≠ "") ∧
    runIdOf (generate_scenario_azure_wrapper false amsgs env b2 run_tree_id st) = none ∧
    (runIdOf (generate_scenario_google_wrapper true gk gm gmsgs b3 run_tree_id st) =
        some run_tree_id ∧ run_tree_id ≠ "") ∧
    runIdOf (generate_scenario_google_wrapper false gk gm gmsgs b3 run_tree_id st) = none ∧
    (runIdOf (generate_scenario_mistral_wrapper true mk mm mmsgs b4 run_tree_id st) =
        some run_tree_id ∧ run_tree_id ≠ "") ∧
    runIdOf (generate_scenario_mistral_wrapper false mk mm mmsgs b4 run_tree_id st) = none ∧
    (runIdOf (generate_scenario_ollama_wrapper true om g b5 run_tree_id st) =
        some run_tree_id ∧ run_tree_id ≠ "") ∧
    runIdOf (generate_scenario_ollama_wrapper false om g b5 run_tree_id st) = none := by
  intro rt k mn sm om omsgs b1 amsgs env b2 gk gm mk mm gmsgs mmsgs b3 b4 g b5 st hrt hst
  refine ⟨⟨?_, hrt⟩, ?_, ⟨?_, hrt⟩, ?_, ⟨?_, hrt⟩, ?_, ⟨?_, hrt⟩, ?_, ⟨?_, hrt⟩, ?_⟩
  · cases hb : b1 omsgs <;>
      simp [generate_scenario_wrapper, generate_scenario_traced, tryExcept, runIdOf, hb]
  · cases hb : b1 omsgs <;>
      simp [generate_scenario_wrapper, generate_scenario_untraced, tryExcept, runIdOf, hb, hst]
  · cases hf : format_messages amsgs with
    | error e =>
      simp [generate_scenario_azure_wrapper, generate_scenario_azure_traced,
            tryExcept, runIdOf, hf]
    | ok w =>
      cases hb : b2 w <;>
        simp [generate_scenario_azure_wrapper, generate_scenario_azure_traced,
              tryExcept, runIdOf, hf, hb]
  · cases hf : format_messages amsgs with
    | error e =>
      simp [generate_scenario_azure_wrapper, generate_scenario_azure_untraced,
            tryExcept, runIdOf, hf, hst]
    | ok w =>
      cases hb : b2 w <;>
        simp [generate_scenario_azure_wrapper, generate_scenario_azure_untraced,
              tryExcept, runIdOf, hf, hb, hst]
  · cases hb : b3 gmsgs <;>
      simp [generate_scenario_google_wrapper, generate_scenario_google_traced,
            tryExcept, runIdOf, hb]
  · cases hb : b3 gmsgs <;>
      simp [generate_scenario_google_wrapper, generate_scenario_google_untraced,
            tryExcept, runIdOf, hb, hst]
  · cases hb : b4 mmsgs <;>
      simp [generate_scenario_mistral_wrapper, generate_scenario_mistral_traced,
            tryExcept, runIdOf, hb]
  · cases hb : b4 mmsgs <;>
      simp [generate_scenario_mistral_wrapper, generate_scenario_mistral_untraced,
            tryExcept, runIdOf, hb, hst]
  · cases hg : g.messages with
    | none =>
      simp [generate_scenario_ollama_wrapper, generate_scenario_ollama_traced,
            tryExcept, runIdOf, hg]
    | some msgs =>
      cases hb : b5 msgs <;>
        simp [generate_scenario_ollama_wrapper, generate_scenario_ollama_traced,
              tryExcept, runIdOf, hg, hb]
  · cases hg : g.messages with
    | none =>
      simp [generate_scenario_ollama_wrapper, generate_scenario_ollama_untraced,
            tryExcept, runIdOf, hg, hst]
    | some msgs =>
      cases hb : b5 msgs <;>
        simp [generate_scenario_ollama_wrapper, generate_scenario_ollama_untraced,
              tryExcept, runIdOf, hg, hb, hst]

/-- Witness for claim C3 at concrete backends (failing and succeeding) and a
fresh session, covering all five generators in both hook states. -/
theorem run_id_hook_invariant_witness :
    (runIdOf (generate_scenario_wrapper true "sk-key" "gpt-4" [] (some "gpt-4")
        (fun _ => Except.error "boom") "a1b2-c3d4" {}) = some "a1b2-c3d4" ∧
      ("a1b2-c3d4" : String) ≠ "") ∧
    runIdOf (generate_scenario_wrapper false "sk-key" "gpt-4" [] (some "gpt-4")
        (fun _ => Except.error "boom") "a1b2-c3d4" {}) = none ∧
    (runIdOf (generate_scenario_azure_wrapper true [] {}
        (fun _ => Except.error "auth") "a1b2-c3d4" {}) = some "a1b2-c3d4" ∧
      ("a1b2-c3d4" : String) ≠ "") ∧
    runIdOf (generate_scenario_azure_wrapper false [] {}
        (fun _ => Except.error "auth") "a1b2-c3d4" {}) = none ∧
    (runIdOf (generate_scenario_google_wrapper true none none []
        (fun _ => Except.ok "text") "a1b2-c3d4" {}) = some "a1b2-c3d4" ∧
      ("a1b2-c3d4" : String) ≠ "") ∧
    runIdOf (generate_scenario_google_wrapper false none none []
        (fun _ => Except.ok "text") "a1b2-c3d4" {}) = none ∧
    (runIdOf (generate_scenario_mistral_wrapper true none none []
        (fun _ => Except.error "down") "a1b2-c3d4" {}) = some "a1b2-c3d4" ∧
      ("a1b2-c3d4" : String) ≠ "") ∧
    runIdOf (generate_scenario_mistral_wrapper false none none []
        (fun _ => Except.error "down") "a1b2-c3d4" {}) = none ∧
    (runIdOf (generate_scenario_ollama_wrapper true "llama2" { messages := none }
        (fun _ => Except.ok "text") "a1b2-c3d4" {}) = some "a1b2-c3d4" ∧
      ("a1b2-c3d4" : String) ≠ "") ∧
    runIdOf (generate_scenario_ollama_wrapper false "llama2" { messages := none }
        (fun _ => Except.ok "text") "a1b2-c3d4" {}) = none := by
  exact run_id_hook_invariant "a1b2-c3d4" "sk-key" "gpt-4" "gpt-4" "llama2" []
    (fun _ => Except.error "boom") [] {} (fun _ => Except.error "auth")
    none none none none [] [] (fun _ => Except.ok "text") (fun _ => Except.error "down")
    { messages := none } (fun _ => Except.ok "text") {}
    (by decide) rfl

/-- Claim C7: whatever the backend call does - return text or raise with any
error text - each of the five generator wrappers returns normally (a response
or Python `None`); no backend-raised fault escapes the adapter boundary.  The
OpenAI wrapper is taken with its session model-name lookup succeeding, since
that lookup happens before its `try` block and is not a backend fault. -/
theorem adapters_never_propagate :
  ∀ (enabled : Bool) (rt : String) (st : SessionState)
    (k mn sm : String) (omsgs : List PyMessage) (b1 : List PyMessage → Except String String)
    (amsgs : List PyMessage) (env : AzureEnv) (b2 : List (String × String) → Except String String)
    (gk gm : Option String) (gmsgs : List PyMessage) (b3 : List PyMessage → Except String String)
    (mk mm : Option String) (mmsgs : List PyMessage) (b4 : List PyMessage → Except String String)
    (om : String) (g : Globals) (b5 : List PyMessage → Except String String),
    runOk (generate_scenario_wrapper enabled k mn omsgs (some sm) b1 rt st) = true ∧
    runOk (generate_scenario_azure_wrapper enabled amsgs env b2 rt st) = true ∧
    runOk (generate_scenario_google_wrapper enabled gk gm gmsgs b3 rt st) = true ∧
    runOk (generate_scenario_mistral_wrapper enabled mk mm mmsgs b4 rt st) = true ∧
    runOk (generate_scenario_ollama_wrapper enabled om g b5 rt st) = true := by
  intro enabled rt st k mn sm omsgs b1 amsgs env b2 gk gm gmsgs b3 mk mm mmsgs b4 om g b5
  refine ⟨?_, ?_, ?_, ?_, ?_⟩
  · cases enabled <;> cases hb : b1 omsgs <;>
      simp [generate_scenario_wrapper, generate_scenario_traced,
            generate_scenario_untraced, tryExcept, runOk, hb]
  · cases hf : format_messages amsgs with
    | error e =>
      cases enabled <;>
        simp [generate_scenario_azure_wrapper, generate_scenario_azure_traced,
              generate_scenario_azure_untraced, tryExcept, runOk, hf]
    | ok formatted =>
      cases enabled <;> cases hb : b2 formatted <;>
        simp [generate_scenario_azure_wrapper, generate_scenario_azure_traced,
              generate_scenario_azure_untraced, tryExcept, runOk, hf, hb]
  · cases enabled <;> cases hb : b3 gmsgs <;>
      simp [generate_scenario_google_wrapper, generate_scenario_google_traced,
            generate_scenario_google_untraced, tryExcept, runOk, hb]
  · cases enabled <;> cases hb : b4 mmsgs <;>
      simp [generate_scenario_mistral_wrapper, generate_scenario_mistral_traced,
            generate_scenario_mistral_untraced, tryExcept, runOk, hb]
  · cases hg : g.messages with
    | none =>
      cases enabled <;>
        simp [generate_scenario_ollama_wrapper, generate_scenario_ollama_traced,
              generate_scenario_ollama_untraced, tryExcept, runOk, hg]
    | some msgs =>
      cases enabled <;> cases hb : b5 msgs <;>
        simp [generate_scenario_ollama_wrapper, generate_scenario_ollama_traced,
              generate_scenario_ollama_untraced, tryExcept, runOk, hg, hb]

/-- Claim C10: a successful template selection yields a sublist of the
catalog's display names (so a subset, kept in the catalog's own row order),
and any technique the template lists that is absent from the catalog is
silently dropped from the selection. -/
theorem template_selection_respects_catalog :
  ∀ (catalog : List String) (template : String) (sel : List String),
    template_selection catalog template = some sel →
    sel.Sublist catalog ∧
    (∀ t, t ∈ sel → t ∈ catalog) ∧
    (∀ tl, lookup_template template = some tl →
      ∀ x, x ∈ tl → x ∉ catalog → x ∉ sel) := by
  intro catalog template sel h
  unfold template_selection at h
  cases hl : lookup_template template with
  | none => rw [hl] at h; cases h
  | some tl =>
    rw [hl] at h
    have hsel : catalog.filter (fun d => tl.contains d) = sel := by
      cases h; rfl
    subst hsel
    refine ⟨List.filter_sublist _, ?_, ?_⟩
    · intro t ht
      exact (List.filter_sublist _).subset ht
    · intro tl' hl' x hx hxc hxs
      exact hxc ((List.filter_sublist _).subset hxs)

/-- Witness for claim C10: a two-entry catalog, listed in the opposite order
to the Phishing Attack template, is filtered in catalog order, and the
template's "Browser Extensions (T1176)" entry, absent from the catalog, is
dropped from the selection. -/
theorem template_selection_respects_catalog_witness :
    (["Input Capture (T1056)", "User Execution (T1204)"] : List String).Sublist
      ["Input Capture (T1056)", "User Execution (T1204)"] ∧
    "Browser Extensions (T1176)" ∉
      (["Input Capture (T1056)", "User Execution (T1204)"] : List String) := by
  refine ⟨(template_selection_respects_catalog
            ["Input Capture (T1056)", "User Execution (T1204)"] "Phishing Attack"
            ["Input Capture (T1056)", "User Execution (T1204)"] (by decide)).1, ?_⟩
  exact (template_selection_respects_catalog
          ["Input Capture (T1056)", "User Execution (T1204)"] "Phishing Attack"
          ["Input Capture (T1056)", "User Execution (T1204)"] (by decide)).2.2
        ["Spearphishing Attachment (T1193)", "User Execution (T1204)",
         "Browser Extensions (T1176)", "Credentials from Password Stores (T1555)",
         "Input Capture (T1056)", "Exfiltration Over C2 Channel (T1041)"] (by decide)
        "Browser Extensions (T1176)" (by decide) (by decide)

/-- Auxiliary for claim C4: on a list where every message exposes a
recognized shape, the Azure conversion loop succeeds and serializes
pointwise through the role rewrite. -/
theorem format_messages_shaped :
  ∀ (msgs : List PyMessage), (∀ m ∈ msgs, has_shape m = true) →
    format_messages msgs = Except.ok (msgs.map wire_of) := by
  intro msgs
  induction msgs with
  | nil => intro _; rfl
  | cons m rest ih =>
    intro h
    have hr : ∀ x ∈ rest, has_shape x = true :=
      fun x hx => h x (List.mem_cons_of_mem _ hx)
    cases m with
    | roleContent r c => simp [format_messages, ih hr, wire_of, Except.map]
    | typeContent t c => simp [format_messages, ih hr, wire_of, Except.map]
    | other s => exact absurd (h _ (List.mem_cons_self _ _)) (by simp [has_shape])

/-- Auxiliary for claim C4: a list containing a message with neither shape
makes the conversion loop raise, with an error text mentioning
"Unsupported message format". -/
theorem format_messages_unsupported :
  ∀ (msgs : List PyMessage), (∃ m ∈ msgs, has_shape m = false) →
    ∃ s, format_messages msgs = Except.error s ∧
      ("Unsupported message format" : String).data <:+: s.data := by
  intro msgs
  induction msgs with
  | nil =>
    intro h
    obtain ⟨m, hm, _⟩ := h
    cases hm
  | cons m rest ih =>
    intro h
    cases m with
    | other s =>
      refine ⟨"Unsupported message format: " ++ s, rfl, ⟨[], (": " ++ s).data, ?_⟩⟩
      have he : ("Unsupported message format: " : String) =
          "Unsupported message format" ++ ": " := by decide
      rw [he]
      simp [String.data_append, List.append_assoc]
    | roleContent r c =>
      have hrest : ∃ x ∈ rest, has_shape x = false := by
        obtain ⟨m', hm', hs⟩ := h
        cases hm' with
        | head => simp [has_shape] at hs
        | tail _ hmem => exact ⟨m', hmem, hs⟩
      obtain ⟨s, hs, hinf⟩ := ih hrest
      exact ⟨s, by simp [format_messages, hs, Except.map], hinf⟩
    | typeContent t c =>
      have hrest : ∃ x ∈ rest, has_shape x = false := by
        obtain ⟨m', hm', hs⟩ := h
        cases hm' with
        | head => simp [has_shape] at hs
        | tail _ hmem => exact ⟨m', hmem, hs⟩
      obtain ⟨s, hs, hinf⟩ := ih hrest
      exact ⟨s, by simp [format_messages, hs, Except.map], hinf⟩

/-- Claim C4: the Azure conversion maps every `human` role or type token to
`user` and keeps every other token; on a recognized-shape list it serializes
pointwise, and on a list containing a message with neither shape the traced
Azure generator returns a failure (Python `None`) whose displayed message
mentions "Unsupported message format", with nothing handed to the backend. -/
theorem azure_human_role_mapping_and_unsupported :
    map_role "human" = "user" ∧
    (∀ r, r ≠ "human" → map_role r = r) ∧
    (∀ msgs, (∀ m ∈ msgs, has_shape m = true) →
      format_messages msgs = Except.ok (msgs.map wire_of)) ∧
    (∀ (msgs : List PyMessage) (env : AzureEnv)
       (backend : List (String × String) → Except String String)
       (rt : String) (st : SessionState),
      (∃ m ∈ msgs, has_shape m = false) →
      retValOf (generate_scenario_azure_traced msgs env backend rt st) = none ∧
      sentWireOf (generate_scenario_azure_traced msgs env backend rt st) = none ∧
      ("Unsupported message format" : String).data <:+:
        ((errorShownOf (generate_scenario_azure_traced msgs env backend rt st)).getD "").data) := by
  refine ⟨rfl, ?_, format_messages_shaped, ?_⟩
  · intro r hr
    simp [map_role, hr]
  · intro msgs env backend rt st h
    obtain ⟨s, hs, u, v, huv⟩ := format_messages_unsupported msgs h
    refine ⟨?_, ?_, ?_⟩
    · simp [generate_scenario_azure_traced, hs, tryExcept, retValOf]
    · simp [generate_scenario_azure_traced, hs, tryExcept, sentWireOf]
    · simp only [generate_scenario_azure_traced, hs, tryExcept, errorShownOf, Option.getD]
      refine ⟨errText.data ++ u, v, ?_⟩
      rw [String.data_append, ← huv]
      simp [List.append_assoc]

/-- Witness for claim C4: a concrete well-shaped list is serialized with the
human-to-user rewrite, and a single shapeless message yields the
"Unsupported message format" failure with no wire messages sent. -/
theorem azure_human_role_mapping_and_unsupported_witness :
    format_messages [PyMessage.typeContent "system" "rules",
                     PyMessage.typeContent "human" "hello"] =
      Except.ok ([PyMessage.typeContent "system" "rules",
                  PyMessage.typeContent "human" "hello"].map wire_of) ∧
    retValOf (generate_scenario_azure_traced [PyMessage.other "<object>"] {}
        (fun _ => Except.ok "resp") "run-1" {}) = none ∧
    sentWireOf (generate_scenario_azure_traced [PyMessage.other "<object>"] {}
        (fun _ => Except.ok "resp") "run-1" {}) = none ∧
    ("Unsupported message format" : String).data <:+:
      ((errorShownOf (generate_scenario_azure_traced [PyMessage.other "<object>"] {}
        (fun _ => Except.ok "resp") "run-1" {})).getD "").data := by
  exact ⟨azure_human_role_mapping_and_unsupported.2.2.1 _ (by decide),
         azure_human_role_mapping_and_unsupported.2.2.2 [PyMessage.other "<object>"] {}
           (fun _ => Except.ok "resp") "run-1" {} (by decide)⟩

/-- Claim C5 counterexample: with an empty technique list the
prompt-construction block is skipped without any error banner (nothing is
"rejected as an InvalidInput"), and on the Ollama branch the adapter wrapper
is still invoked. -/
theorem empty_techniques_not_rejected :
    construct_prompt [] "" "Finance" "Large" = (none, none) ∧
    (ollama_dispatch "llama2" "Finance" "Large" true "run-1" { messages := none }
        (fun _ => Except.ok "text") {}).2.isSome = true := by
  exact ⟨rfl, rfl⟩

/-- Claim C5 amended: with an empty technique list no PromptMessages value is
produced and no error is signalled - the construction block is silently
skipped, leaving the module-global `messages` unbound.  The Ollama adapter is
nevertheless still invoked when its own guards pass; it hands nothing to the
backend and fails internally on the unbound name, surfacing a `Failure`, so
no adapter ever receives messages derived from an empty technique list. -/
theorem empty_techniques_silently_skipped :
  ∀ (tmpl industry company_size : String),
    construct_prompt [] tmpl industry company_size = (none, none) ∧
    (∀ (enabled : Bool) (model rt : String)
       (backend : List PyMessage → Except String String) (st : SessionState),
      model ≠ "" → industry ≠ "" → company_size ≠ "" →
      ollama_dispatch model industry company_size enabled rt { messages := none } backend st =
        ([], some (generate_scenario_ollama_wrapper enabled model { messages := none }
          backend rt st)) ∧
      sentOf (generate_scenario_ollama_wrapper enabled model { messages := none }
        backend rt st) = none ∧
      retValOf (generate_scenario_ollama_wrapper enabled model { messages := none }
        backend rt st) = none ∧
      errorShownOf (generate_scenario_ollama_wrapper enabled model { messages := none }
        backend rt st) = some (errText ++ "name 'messages' is not defined")) := by
  intro tmpl industry company_size
  refine ⟨rfl, ?_⟩
  intro enabled model rt backend st hm hi hc
  refine ⟨?_, ?_, ?_, ?_⟩
  · simp [ollama_dispatch, hm, hi, hc]
  · cases enabled <;>
      simp [generate_scenario_ollama_wrapper, generate_scenario_ollama_traced,
            generate_scenario_ollama_untraced, tryExcept, sentOf]
  · cases enabled <;>
      simp [generate_scenario_ollama_wrapper, generate_scenario_ollama_traced,
            generate_scenario_ollama_untraced, tryExcept, retValOf]
  · cases enabled <;>
      simp [generate_scenario_ollama_wrapper, generate_scenario_ollama_traced,
            generate_scenario_ollama_untraced, tryExcept, errorShownOf]

/-- Witness for claim C5's amended statement at concrete inputs. -/
theorem empty_techniques_silently_skipped_witness :
    construct_prompt [] "" "Finance" "Large" = (none, none) ∧
    ollama_dispatch "llama2" "Finance" "Large" true "run-1" { messages := none }
        (fun _ => Except.ok "text") {} =
      ([], some (generate_scenario_ollama_wrapper true "llama2" { messages := none }
        (fun _ => Except.ok "text") "run-1" {})) ∧
    sentOf (generate_scenario_ollama_wrapper true "llama2" { messages := none }
      (fun _ => Except.ok "text") "run-1" {}) = none ∧
    retValOf (generate_scenario_ollama_wrapper true "llama2" { messages := none }
      (fun _ => Except.ok "text") "run-1" {}) = none ∧
    errorShownOf (generate_scenario_ollama_wrapper true "llama2" { messages := none }
      (fun _ => Except.ok "text") "run-1" {}) =
        some (errText ++ "name 'messages' is not defined") := by
  exact ⟨(empty_techniques_silently_skipped "" "Finance" "Large").1,
         (empty_techniques_silently_skipped "" "Finance" "Large").2 true "llama2" "run-1"
           (fun _ => Except.ok "text") {} (by decide) (by decide) (by decide)⟩

/-- Auxiliary for claim C6: every member of the technique list occurs inside
its newline join. -/
theorem mem_data_in_selected :
  ∀ (ts : List String) (t : String), t ∈ ts →
    t.data <:+: (selected_techniques_string ts).data := by
  intro ts
  induction ts with
  | nil =>
    intro t h
    cases h
  | cons a rest ih =>
    intro t h
    cases rest with
    | nil =>
      have ht : t = a := by
        cases h with
        | head => rfl
        | tail _ hm => cases hm
      subst ht
      exact ⟨[], [], by simp [selected_techniques_string]⟩
    | cons b rs =>
      cases h with
      | head =>
        refine ⟨[], ("\n" ++ selected_techniques_string (b :: rs)).data, ?_⟩
        simp [selected_techniques_string, String.data_append, List.append_assoc]
      | tail _ hmem =>
        obtain ⟨u, v, huv⟩ := ih t hmem
        refine ⟨(a ++ "\n").data ++ u, v, ?_⟩
        rw [List.append_assoc] at huv
        simp [selected_techniques_string, String.data_append, List.append_assoc, huv]

set_option maxRecDepth 10000 in
/-- Claim C6: for a valid submission (non-empty technique list) the rendered
user text contains the newline join of the technique display names intact -
bracketed by newlines, in the caller's order, with no reordering or
deduplication - hence each display name on its own line; it contains the
line "This is a '<template_label>' scenario." whenever the template label is
set, and the derived template-info string is empty when it is not. -/
theorem user_text_contains_techniques_in_order :
  ∀ (industry company_size tmpl : String) (ts : List String), ts ≠ [] →
    (("\n" ++ selected_techniques_string ts ++ "\n").data <:+:
      (user_text industry company_size (template_info tmpl)
        (selected_techniques_string ts)).data) ∧
    (∀ t, t ∈ ts → t.data <:+:
      (user_text industry company_size (template_info tmpl)
        (selected_techniques_string ts)).data) ∧
    (tmpl ≠ "" →
      template_info tmpl = "This is a '" ++ tmpl ++ "' scenario." ∧
      ("\n" ++ ("This is a '" ++ tmpl ++ "' scenario.") ++ "\n").data <:+:
        (user_text industry company_size (template_info tmpl)
          (selected_techniques_string ts)).data) ∧
    (tmpl = "" → template_info tmpl = "") := by
  intro industry company_size tmpl ts _hne
  have hSinf : ("\n" ++ selected_techniques_string ts ++ "\n").data <:+:
      (user_text industry company_size (template_info tmpl)
        (selected_techniques_string ts)).data := by
    refine ⟨("\n**Background information:**\nThe company operates in the '" ++ industry ++
      "' industry and is of size '" ++ company_size ++
      "'.\n\n**Threat actor information:**" ++ "\n" ++ template_info tmpl ++ "\n" ++
      "The threat actor is known to use the following ATT&CK techniques:").data,
      ("\n**Your task:**\nCreate a custom incident response testing scenario based on the information provided. The goal of the scenario is to test the company's incident response capabilities against a threat actor group that uses the identified ATT&CK techniques. \n\nYour response should be well structured and formatted using Markdown.\n").data, ?_⟩
    simp only [user_text, String.data_append, List.append_assoc]
  have hS : (selected_techniques_string ts).data <:+:
      (user_text industry company_size (template_info tmpl)
        (selected_techniques_string ts)).data := by
    obtain ⟨u, v, huv⟩ := hSinf
    refine ⟨u ++ "\n".data, "\n".data ++ v, ?_⟩
    rw [← huv]
    simp [String.data_append, List.append_assoc]
  refine ⟨hSinf, ?_, ?_, ?_⟩
  · intro t ht
    exact (mem_data_in_selected ts t ht).trans hS
  · intro h
    have hti : template_info tmpl = "This is a '" ++ tmpl ++ "' scenario." := by
      simp [template_info, h]
    refine ⟨hti, ?_⟩
    refine ⟨("\n**Background information:**\nThe company operates in the '" ++ industry ++
      "' industry and is of size '" ++ company_size ++
      "'.\n\n**Threat actor information:**").data,
      ("The threat actor is known to use the following ATT&CK techniques:" ++ "\n" ++
        selected_techniques_string ts ++ "\n" ++
        "\n**Your task:**\nCreate a custom incident response testing scenario based on the information provided. The goal of the scenario is to test the company's incident response capabilities against a threat actor group that uses the identified ATT&CK techniques. \n\nYour response should be well structured and formatted using Markdown.\n").data, ?_⟩
    simp only [user_text, hti, String.data_append, List.append_assoc]
  · intro h
    simp [template_info, h]

/-- Witness for claim C6 at the spec's own scenario: Finance / Large /
Phishing Attack with two techniques in the given order. -/
theorem user_text_contains_techniques_in_order_witness :
    ("\n" ++ selected_techniques_string
        ["User Execution (T1204)", "Input Capture (T1056)"] ++ "\n").data <:+:
      (user_text "Finance" "Large" (template_info "Phishing Attack")
        (selected_techniques_string
          ["User Execution (T1204)", "Input Capture (T1056)"])).data ∧
    ("\n" ++ ("This is a '" ++ "Phishing Attack" ++ "' scenario.") ++ "\n").data <:+:
      (user_text "Finance" "Large" (template_info "Phishing Attack")
        (selected_techniques_string
          ["User Execution (T1204)", "Input Capture (T1056)"])).data := by
  exact ⟨(user_text_contains_techniques_in_order "Finance" "Large" "Phishing Attack"
            ["User Execution (T1204)", "Input Capture (T1056)"] (by decide)).1,
         ((user_text_contains_techniques_in_order "Finance" "Large" "Phishing Attack"
            ["User Execution (T1204)", "Input Capture (T1056)"] (by decide)).2.2.1
              (by decide)).2⟩
